import Mathlib

/-!
Verification of the Vivado TCL session manager (`vivado_session.py`).

Strings are modelled as `List Char`.  Python's `str.strip` / `str.split` /
`re.match` uses are embedded as executable Lean functions below; only the
ASCII behaviour matters for the inputs under consideration (the anchored
error patterns are pure ASCII).  Timestamps and elapsed times are modelled
abstractly as natural numbers supplied by the environment.
-/

/-- Python whitespace class used by `str.strip` (and the ASCII part of
regex whitespace). -/
def isPySpace (c : Char) : Bool :=
  c == ' ' || c == '\t' || c == '\n' || c == '\r' || c == '\x0b' || c == '\x0c'

/-- Drop matching characters from the end of a list. -/
def pyDropEnd (p : Char → Bool) (l : List Char) : List Char :=
  (l.reverse.dropWhile p).reverse

/-- Python `str.strip()`. -/
def pyStrip (l : List Char) : List Char :=
  pyDropEnd isPySpace (l.dropWhile isPySpace)

/-- Python `s.split('\n')` (returns `[""]` on the empty string, keeps empty
pieces). -/
def splitOnNl : List Char → List (List Char)
  | [] => [[]]
  | c :: rest =>
    let r := splitOnNl rest
    if c == '\n' then [] :: r
    else
      match r with
      | [] => [[c]]
      | l :: ls => (c :: l) :: ls

/-- Python `sub in s` (substring test). -/
def containsSub (sub : List Char) : List Char → Bool
  | [] => sub.isEmpty
  | c :: rest => sub.isPrefixOf (c :: rest) || containsSub sub rest

/-- ASCII lowercasing, modelling `re.IGNORECASE` matching. -/
def lowerChars (l : List Char) : List Char :=
  l.map Char.toLower

/-- `re.match(pattern, st, re.IGNORECASE)` for a pattern that is a literal
string anchored at the start (`pre` is given in lowercase). -/
def startsWithCI (pre : String) (st : List Char) : Bool :=
  pre.toList.isPrefixOf (lowerChars st)

/-- `re.match` for an anchored pattern of the shape `pre.*mid` (case
insensitive; `pre`, `mid` given in lowercase).  Since the matched text is a
single line, `.*` is an arbitrary gap. -/
def matchDotStar (pre mid : String) (st : List Char) : Bool :=
  pre.toList.isPrefixOf (lowerChars st)
    && containsSub mid.toList ((lowerChars st).drop pre.toList.length)

/-- The six anchored TCL error patterns of `classify_output_errors`, in
source order. -/
def tclPatterns : List (List Char → Bool) :=
  [ startsWithCI "invalid command name",
    startsWithCI "wrong # args:",
    matchDotStar "can\x27t read \"" "\": no such variable",
    matchDotStar "expected " " but got",
    startsWithCI "couldn\x27t open",
    startsWithCI "no files matched" ]

/-- Whether a stripped line matches one of the TCL error patterns. -/
def tclLineMatches (st : List Char) : Bool :=
  tclPatterns.any (fun p => p st)

/-- `re.match(r'^ERROR:\s*\[', stripped)` — case sensitive: the literal
`ERROR:`, optional whitespace, then an opening bracket. -/
def vivadoErrorMatch (st : List Char) : Bool :=
  "ERROR:".toList.isPrefixOf st
    && (((st.drop 6).dropWhile isPySpace).headD 'x' == '[')

/-- The fixed report-content indicator substrings. -/
def reportIndicators : List (List Char) :=
  [ "WNS(ns)".toList, "TNS(ns)".toList, "WHS(ns)".toList,
    "+---------".toList, "|------".toList, "| Site Type".toList,
    "| Resource".toList, "Utilization".toList,
    "Design Timing Summary".toList, "Clock Summary".toList ]

/-- Classification of Vivado output (dataclass `ErrorClassification`). -/
structure ErrorClassification where
  is_tcl_error : Bool
  is_vivado_error : Bool
  is_report_content : Bool
  error_messages : List (List Char)
deriving DecidableEq

/-- The `is_actual_failure` property: a real error is a TCL error or a
Vivado error; report content does not count. -/
def ErrorClassification.is_actual_failure (c : ErrorClassification) : Bool :=
  c.is_tcl_error || c.is_vivado_error

/-- `classify_output_errors(output, command)`: TCL errors are looked for in
the first five lines of the stripped output, Vivado errors (`ERROR: [`)
in every line, and report indicators anywhere in the raw output. -/
def classify_output_errors (output command : List Char) : ErrorClassification :=
  let lines := splitOnNl (pyStrip output)
  { is_tcl_error := (lines.take 5).any (fun l => tclLineMatches (pyStrip l)),
    is_vivado_error := lines.any (fun l => vivadoErrorMatch (pyStrip l)),
    is_report_content := reportIndicators.any (fun ind => containsSub ind output),
    error_messages :=
      ((lines.take 5).map
        (fun l => (tclPatterns.filter (fun p => p (pyStrip l))).map
          (fun _ => pyStrip l))).flatten
      ++ lines.filterMap
        (fun l => if vivadoErrorMatch (pyStrip l) then some (pyStrip l) else none) }

/-- Result of one session operation (dataclass `CommandResult`). -/
structure CommandResult where
  command : List Char
  output : List Char
  return_value : List Char
  success : Bool
  elapsed_ms : Nat
  timestamp : Nat
deriving DecidableEq

/-- One entry of `stats["command_history"]`. -/
structure HistEntry where
  command : List Char
  success : Bool
  elapsed_ms : Nat
  timestamp : Nat
deriving DecidableEq

/-- The history update of `run_tcl`: append the new entry, then if the
list has grown beyond 100 entries keep only the last 100
(`history[-100:]`). -/
def ringAppend (h : List HistEntry) (x : HistEntry) : List HistEntry :=
  let h0 := h ++ [x]
  if h0.length > 100 then h0.drop (h0.length - 100) else h0

/-- The `stats` dictionary of `VivadoSession`. -/
structure Stats where
  session_start : Option Nat
  commands_run : Nat
  total_command_time_ms : Nat
  errors : Nat
  command_history : List HistEntry
deriving DecidableEq

/-- The mutable state of a `VivadoSession` (the pexpect child handle is
kept abstract; environment responses are passed to each operation). -/
structure VivadoSession where
  vivado_path : List Char
  timeout : Nat
  is_running : Bool
  current_project : Option (List Char)
  stats : Stats
deriving DecidableEq

/-- `VivadoSession.__init__`. -/
def VivadoSession.init (vivado_path : List Char) (timeout : Nat) : VivadoSession :=
  { vivado_path := vivado_path
    timeout := timeout
    is_running := false
    current_project := none
    stats :=
      { session_start := none
        commands_run := 0
        total_command_time_ms := 0
        errors := 0
        command_history := [] } }

/-- Environment outcome of the spawn/banner/prompt phase of `start`. -/
inductive SpawnOutcome where
  | ok
  | timedOut
  | exn (msg : List Char)
deriving DecidableEq

/-- Environment data consumed by one `start` call: its outcome, the
measured elapsed milliseconds and the current wall-clock timestamp. -/
structure StartEnv where
  outcome : SpawnOutcome
  elapsed : Nat
  now : Nat
deriving DecidableEq

/-- `VivadoSession.start`.  If already running it returns success without
touching the state; otherwise the successful branch marks the session
running and stamps `session_start`, and the failure branches leave the
session not running. -/
def VivadoSession.start (s : VivadoSession) (e : StartEnv) :
    VivadoSession × CommandResult :=
  if s.is_running then
    (s,
     { command := "start".toList
       output := "Session already running".toList
       return_value := "0".toList
       success := true
       elapsed_ms := 0
       timestamp := e.now })
  else
    match e.outcome with
    | SpawnOutcome.ok =>
        ({ s with
            is_running := true
            stats := { s.stats with session_start := some e.now } },
         { command := "start".toList
           output := "Vivado session started successfully".toList
           return_value := "0".toList
           success := true
           elapsed_ms := e.elapsed
           timestamp := e.now })
    | SpawnOutcome.timedOut =>
        ({ s with is_running := false },
         { command := "start".toList
           output := "Failed to start Vivado: Timeout waiting for startup".toList
           return_value := "1".toList
           success := false
           elapsed_ms := e.elapsed
           timestamp := e.now })
    | SpawnOutcome.exn msg =>
        ({ s with is_running := false },
         { command := "start".toList
           output := "Failed to start Vivado: ".toList ++ msg
           return_value := "1".toList
           success := false
           elapsed_ms := e.elapsed
           timestamp := e.now })

/-- The output-parsing loop of `run_tcl`: skip lines until one contains the
normalized command echo, then collect stripped non-empty lines that are not
prompt lines. -/
def frameLoop (cmdN : List Char) (found : Bool) : List (List Char) → List (List Char)
  | [] => []
  | l :: rest =>
    let stripped := pyStrip l
    if found then
      if stripped == "Vivado%".toList || "Vivado%".toList.isPrefixOf stripped then
        frameLoop cmdN true rest
      else if stripped.isEmpty then
        frameLoop cmdN true rest
      else
        stripped :: frameLoop cmdN true rest
    else
      frameLoop cmdN (containsSub cmdN stripped) rest

/-- Framing of the raw pexpect capture in `run_tcl`: remove `'\r'`, split
on newlines, run `frameLoop`, rejoin and strip. -/
def frameOutput (raw command : List Char) : List Char :=
  let lines := splitOnNl (raw.filter (fun c => c != '\r'))
  pyStrip (List.intercalate ['\n'] (frameLoop (pyStrip command) false lines))

/-- Environment outcome of one `run_tcl` call: either the prompt was seen
(with the raw capture before it), or the wait timed out, or some other
exception was raised. -/
inductive RunOutcome where
  | completed (raw : List Char)
  | timedOut
  | exn (msg : List Char)
deriving DecidableEq

/-- Environment data consumed by one `run_tcl` call. -/
structure RunEnv where
  outcome : RunOutcome
  elapsed : Nat
  now : Nat
deriving DecidableEq

/-- Result of one `run_tcl` call: the new session state, the returned
`CommandResult`, the lines written to the child process, and whether the
execution lock was taken. -/
structure RunOut where
  state : VivadoSession
  result : CommandResult
  sent : List (List Char)
  lock_acquired : Bool
deriving DecidableEq

/-- `VivadoSession.run_tcl`.  Not running: immediate failure, no state
change, no process interaction.  Completed: frame, classify, update the
statistics and the bounded history.  Timeout / exception: increment only
`errors` and report failure. -/
def VivadoSession.run_tcl (s : VivadoSession) (command : List Char) (e : RunEnv) :
    RunOut :=
  if s.is_running = false then
    { state := s
      result :=
        { command := command
          output := "Vivado session not running. Call start() first.".toList
          return_value := "1".toList
          success := false
          elapsed_ms := 0
          timestamp := e.now }
      sent := []
      lock_acquired := false }
  else
    match e.outcome with
    | RunOutcome.completed raw =>
        let output := frameOutput raw command
        let classification := classify_output_errors output command
        let success := !classification.is_actual_failure
        let entry : HistEntry :=
          { command := command
            success := success
            elapsed_ms := e.elapsed
            timestamp := e.now }
        let hist := ringAppend s.stats.command_history entry
        { state :=
            { s with
                stats :=
                  { s.stats with
                      commands_run := s.stats.commands_run + 1
                      total_command_time_ms := s.stats.total_command_time_ms + e.elapsed
                      errors := if success then s.stats.errors else s.stats.errors + 1
                      command_history := hist } }
          result :=
            { command := command
              output := output
              return_value := if success then "0".toList else "1".toList
              success := success
              elapsed_ms := e.elapsed
              timestamp := e.now }
          sent := [command]
          lock_acquired := true }
    | RunOutcome.timedOut =>
        { state :=
            { s with stats := { s.stats with errors := s.stats.errors + 1 } }
          result :=
            { command := command
              output := "Command timed out after ".toList
                ++ (Nat.repr s.timeout).toList ++ "s".toList
              return_value := "1".toList
              success := false
              elapsed_ms := e.elapsed
              timestamp := e.now }
          sent := [command]
          lock_acquired := true }
    | RunOutcome.exn msg =>
        { state :=
            { s with stats := { s.stats with errors := s.stats.errors + 1 } }
          result :=
            { command := command
              output := "Error executing command: ".toList ++ msg
              return_value := "1".toList
              success := false
              elapsed_ms := e.elapsed
              timestamp := e.now }
          sent := [command]
          lock_acquired := true }

/-- `VivadoSession.stop`.  All exit paths (graceful exit, forced close,
even a failing close) converge on the same state update, so no
environment outcome is needed: if running, the session is marked not
running and the current project is cleared; either way `stop` reports
success. -/
def VivadoSession.stop (s : VivadoSession) (now elapsed : Nat) :
    VivadoSession × CommandResult :=
  if s.is_running = false then
    (s,
     { command := "stop".toList
       output := "Session not running".toList
       return_value := "0".toList
       success := true
       elapsed_ms := 0
       timestamp := now })
  else
    ({ s with is_running := false, current_project := none },
     { command := "stop".toList
       output := "Vivado session stopped".toList
       return_value := "0".toList
       success := true
       elapsed_ms := elapsed
       timestamp := now })

/-- `VivadoSession.is_healthy`: false when not running (or no child),
otherwise whatever the marker-echo probe observed. -/
def VivadoSession.is_healthy (s : VivadoSession) (responsive : Bool) : Bool :=
  s.is_running && responsive

/-- Environment data consumed by one `ensure_healthy` call. -/
structure EnsureEnv where
  responsive : Bool
  now : Nat
  stop_now : Nat
  stop_elapsed : Nat
  start_env : StartEnv
deriving DecidableEq

/-- `VivadoSession.ensure_healthy`: report health if the probe succeeds,
otherwise `stop()` then `start()`. -/
def VivadoSession.ensure_healthy (s : VivadoSession) (e : EnsureEnv) :
    VivadoSession × CommandResult :=
  if VivadoSession.is_healthy s e.responsive then
    (s,
     { command := "health_check".toList
       output := "Session healthy".toList
       return_value := "0".toList
       success := true
       elapsed_ms := 0
       timestamp := e.now })
  else
    VivadoSession.start (VivadoSession.stop s e.stop_now e.stop_elapsed).1 e.start_env

/-- The command string the server sends for `open_project`
(`f"open_project {{{path}}}"`). -/
def openProjectCmd (path : List Char) : List Char :=
  "open_project \x7b".toList ++ path ++ "\x7d".toList

/-- The command string the server sends for `close_project`. -/
def closeProjectCmd : List Char :=
  "close_project".toList

/-- States a `VivadoSession` can actually be in: reachable from
construction through the session operations themselves plus the two
caller actions of the server that touch `current_project` (set after a
successful `open_project` command, cleared by `close_project`). -/
inductive Reachable : VivadoSession → Prop where
  | init (path : List Char) (timeout : Nat) :
      Reachable (VivadoSession.init path timeout)
  | startStep (s : VivadoSession) (e : StartEnv) :
      Reachable s → Reachable (VivadoSession.start s e).1
  | runStep (s : VivadoSession) (c : List Char) (e : RunEnv) :
      Reachable s → Reachable (VivadoSession.run_tcl s c e).state
  | stopStep (s : VivadoSession) (now elapsed : Nat) :
      Reachable s → Reachable (VivadoSession.stop s now elapsed).1
  | ensureStep (s : VivadoSession) (e : EnsureEnv) :
      Reachable s → Reachable (VivadoSession.ensure_healthy s e).1
  | openProjectStep (s : VivadoSession) (p : List Char) (e : RunEnv) :
      Reachable s →
      (VivadoSession.run_tcl s (openProjectCmd p) e).result.success = true →
      Reachable
        { (VivadoSession.run_tcl s (openProjectCmd p) e).state with
            current_project := some p }
  | closeProjectStep (s : VivadoSession) (e : RunEnv) :
      Reachable s →
      Reachable
        { (VivadoSession.run_tcl s closeProjectCmd e).state with
            current_project := none }

/-- The last `n` elements of a list (Python `l[-n:]` for nonempty slices). -/
def lastN {α : Type} (n : Nat) (l : List α) : List α :=
  l.drop (l.length - n)

/-- The history entry `run_tcl` appends for a command whose prompt wait
completed with raw capture `raw`. -/
def mkHistEntry (c : List Char) (e : RunEnv) (raw : List Char) : HistEntry :=
  { command := c
    success := !(classify_output_errors (frameOutput raw c) c).is_actual_failure
    elapsed_ms := e.elapsed
    timestamp := e.now }

/-- The history entries a sequence of `run_tcl` calls generates: one per
call whose prompt wait completed (timeouts and exceptions append
nothing). -/
def seqEntries : List (List Char × RunEnv) → List HistEntry
  | [] => []
  | (c, e) :: rest =>
    match e.outcome with
    | RunOutcome.completed raw => mkHistEntry c e raw :: seqEntries rest
    | _ => seqEntries rest

/-- Run a whole sequence of `run_tcl` calls, threading the session state. -/
def runSeq (s : VivadoSession) : List (List Char × RunEnv) → VivadoSession
  | [] => s
  | (c, e) :: rest => runSeq (VivadoSession.run_tcl s c e).state rest

/-- The `return_value` convention of `CommandResult`: `"0"` exactly on
success, `"1"` otherwise. -/
def rv_spec (r : CommandResult) : Prop :=
  r.return_value = if r.success then "0".toList else "1".toList

/-- A freshly started session (successful spawn from a new manager). -/
def sRunning : VivadoSession :=
  (VivadoSession.start (VivadoSession.init "vivado".toList 300)
    ⟨SpawnOutcome.ok, 5, 10⟩).1

/-- State after one timed-out command on a freshly started session. -/
def c1State : VivadoSession :=
  (VivadoSession.run_tcl sRunning "puts hi".toList
    ⟨RunOutcome.timedOut, 7, 11⟩).state

/-- State after one completed command and a `stop` on a freshly started
session: not running, with `commands_run = 1` carried over. -/
def c2Pre : VivadoSession :=
  (VivadoSession.stop
    (VivadoSession.run_tcl sRunning "puts hi".toList
      ⟨RunOutcome.completed "puts hi\nhi".toList, 3, 12⟩).state
    13 2).1

/-- A successful spawn environment for restarting `c2Pre`. -/
def c2Env : StartEnv :=
  ⟨SpawnOutcome.ok, 4, 20⟩

/-- 101 completed commands, used to exercise the history ring bound. -/
def c8Seq : List (List Char × RunEnv) :=
  List.replicate 101
    ("puts ok".toList, (⟨RunOutcome.completed "puts ok".toList, 1, 2⟩ : RunEnv))

lemma run_tcl_not_running_eq (s : VivadoSession) (c : List Char) (e : RunEnv)
    (h : s.is_running = false) :
    VivadoSession.run_tcl s c e =
      { state := s
        result :=
          { command := c
            output := "Vivado session not running. Call start() first.".toList
            return_value := "1".toList
            success := false
            elapsed_ms := 0
            timestamp := e.now }
        sent := []
        lock_acquired := false } := by
  simp [VivadoSession.run_tcl, h]

lemma run_tcl_state_is_running (s : VivadoSession) (c : List Char) (e : RunEnv) :
    (VivadoSession.run_tcl s c e).state.is_running = s.is_running := by
  obtain ⟨o, el, n⟩ := e
  by_cases h : s.is_running = false
  · simp [VivadoSession.run_tcl, h]
  · cases o <;> simp [VivadoSession.run_tcl, h]

lemma run_tcl_state_current_project (s : VivadoSession) (c : List Char) (e : RunEnv) :
    (VivadoSession.run_tcl s c e).state.current_project = s.current_project := by
  obtain ⟨o, el, n⟩ := e
  by_cases h : s.is_running = false
  · simp [VivadoSession.run_tcl, h]
  · cases o <;> simp [VivadoSession.run_tcl, h]

lemma run_tcl_success_running (s : VivadoSession) (c : List Char) (e : RunEnv)
    (h : (VivadoSession.run_tcl s c e).result.success = true) :
    s.is_running = true := by
  by_cases hr : s.is_running = false
  · rw [run_tcl_not_running_eq s c e hr] at h
    exact absurd h (by simp)
  · exact eq_true_of_ne_false hr

lemma start_fst_not_running (s : VivadoSession) (e : StartEnv)
    (ih : s.is_running = false → s.current_project = none) :
    (VivadoSession.start s e).1.is_running = false →
    (VivadoSession.start s e).1.current_project = none := by
  obtain ⟨o, el, n⟩ := e
  cases hr : s.is_running with
  | true =>
    simp only [VivadoSession.start, hr, if_pos]
    intro h
    exact absurd h (by simp)
  | false =>
    cases o with
    | ok => simp [VivadoSession.start, hr]
    | timedOut =>
      simp only [VivadoSession.start, hr]
      intro _
      exact ih hr
    | exn m =>
      simp only [VivadoSession.start, hr]
      intro _
      exact ih hr

lemma stop_fst_not_running (s : VivadoSession) (now elapsed : Nat)
    (ih : s.is_running = false → s.current_project = none) :
    (VivadoSession.stop s now elapsed).1.is_running = false →
    (VivadoSession.stop s now elapsed).1.current_project = none := by
  cases hr : s.is_running with
  | true => simp [VivadoSession.stop, hr]
  | false =>
    simp only [VivadoSession.stop, hr]
    intro _
    exact ih hr

lemma ensure_fst_not_running (s : VivadoSession) (e : EnsureEnv)
    (ih : s.is_running = false → s.current_project = none) :
    (VivadoSession.ensure_healthy s e).1.is_running = false →
    (VivadoSession.ensure_healthy s e).1.current_project = none := by
  unfold VivadoSession.ensure_healthy
  by_cases hh : VivadoSession.is_healthy s e.responsive = true
  · simp only [hh, if_pos]
    exact ih
  · simp only [hh, if_neg, Bool.not_eq_true]
    exact start_fst_not_running _ _ (stop_fst_not_running s e.stop_now e.stop_elapsed ih)

/-- States a reachable session can be in: whenever it is not running, the
current project is cleared. -/
lemma reachable_inv (s : VivadoSession) (h : Reachable s) :
    s.is_running = false → s.current_project = none := by
  induction h with
  | init path t => intro _; rfl
  | startStep s e _ ih => exact start_fst_not_running s e ih
  | runStep s c e _ ih =>
    intro h2
    rw [run_tcl_state_current_project]
    exact ih ((run_tcl_state_is_running s c e).symm.trans h2)
  | stopStep s now elapsed _ ih => exact stop_fst_not_running s now elapsed ih
  | ensureStep s e _ ih => exact ensure_fst_not_running s e ih
  | openProjectStep s p e _ hsucc ih =>
    intro h2
    exfalso
    have hr : s.is_running = true := run_tcl_success_running s (openProjectCmd p) e hsucc
    have h3 :
        ({ (VivadoSession.run_tcl s (openProjectCmd p) e).state with
            current_project := some p } : VivadoSession).is_running
          = s.is_running := run_tcl_state_is_running s (openProjectCmd p) e
    rw [h2, hr] at h3
    exact absurd h3 (by simp)
  | closeProjectStep s e _ ih => intro _; rfl

/-- Claim C4: from every state the session can actually be in, `stop()`
returns a result with `success = true`, and afterwards the session is not
running and the current project (the current context) is cleared. -/
theorem claim_C4_stop_always_succeeds (s : VivadoSession) (now elapsed : Nat)
    (h : Reachable s) :
    (VivadoSession.stop s now elapsed).2.success = true ∧
    (VivadoSession.stop s now elapsed).1.is_running = false ∧
    (VivadoSession.stop s now elapsed).1.current_project = none := by
  cases hr : s.is_running with
  | false =>
    refine ⟨by simp [VivadoSession.stop, hr], by simp [VivadoSession.stop, hr], ?_⟩
    simp only [VivadoSession.stop, hr]
    simpa using reachable_inv s h hr
  | true =>
    exact ⟨by simp [VivadoSession.stop, hr], by simp [VivadoSession.stop, hr],
      by simp [VivadoSession.stop, hr]⟩

theorem claim_C4_witness :
    (VivadoSession.stop (VivadoSession.init "vivado".toList 300) 0 0).2.success = true ∧
    (VivadoSession.stop (VivadoSession.init "vivado".toList 300) 0 0).1.is_running = false ∧
    (VivadoSession.stop (VivadoSession.init "vivado".toList 300) 0 0).1.current_project = none :=
  claim_C4_stop_always_succeeds (VivadoSession.init "vivado".toList 300) 0 0
    (Reachable.init "vivado".toList 300)

/-- Claim C7: a command issued while the session is not running fails
immediately: the result has `success = false`, the session state is
unchanged, nothing is written to the child process and the execution lock
is never taken. -/
theorem claim_C7_not_running_no_interaction (s : VivadoSession) (c : List Char)
    (e : RunEnv) (h : s.is_running = false) :
    (VivadoSession.run_tcl s c e).result.success = false ∧
    (VivadoSession.run_tcl s c e).state = s ∧
    (VivadoSession.run_tcl s c e).sent = [] ∧
    (VivadoSession.run_tcl s c e).lock_acquired = false := by
  rw [run_tcl_not_running_eq s c e h]
  exact ⟨rfl, rfl, rfl, rfl⟩

theorem claim_C7_witness :
    (VivadoSession.run_tcl (VivadoSession.init "vivado".toList 300) "puts hi".toList
      ⟨RunOutcome.completed [], 1, 2⟩).result.success = false ∧
    (VivadoSession.run_tcl (VivadoSession.init "vivado".toList 300) "puts hi".toList
      ⟨RunOutcome.completed [], 1, 2⟩).state = VivadoSession.init "vivado".toList 300 ∧
    (VivadoSession.run_tcl (VivadoSession.init "vivado".toList 300) "puts hi".toList
      ⟨RunOutcome.completed [], 1, 2⟩).sent = [] ∧
    (VivadoSession.run_tcl (VivadoSession.init "vivado".toList 300) "puts hi".toList
      ⟨RunOutcome.completed [], 1, 2⟩).lock_acquired = false :=
  claim_C7_not_running_no_interaction (VivadoSession.init "vivado".toList 300)
    "puts hi".toList ⟨RunOutcome.completed [], 1, 2⟩ rfl

/-- Claim C3: for every output and command, `is_actual_failure` equals
`is_tcl_error OR is_vivado_error`, and it is independent of the
report-content indicator: any line matching the anchored `ERROR: [` shape
forces `is_actual_failure = true` no matter what else the output holds. -/
theorem claim_C3_decision_rule (output command : List Char) :
    (classify_output_errors output command).is_actual_failure
      = ((classify_output_errors output command).is_tcl_error
          || (classify_output_errors output command).is_vivado_error) ∧
    ((splitOnNl (pyStrip output)).any (fun l => vivadoErrorMatch (pyStrip l)) = true →
      (classify_output_errors output command).is_actual_failure = true) := by
  constructor
  · rfl
  · intro h
    simp [classify_output_errors, ErrorClassification.is_actual_failure, h]

theorem claim_C3_witness :
    (splitOnNl (pyStrip "ERROR: [X-1] failed\n| Site Type |".toList)).any
      (fun l => vivadoErrorMatch (pyStrip l)) = true ∧
    (classify_output_errors "ERROR: [X-1] failed\n| Site Type |".toList
      "report_utilization".toList).is_report_content = true ∧
    (classify_output_errors "ERROR: [X-1] failed\n| Site Type |".toList
      "report_utilization".toList).is_actual_failure = true :=
  ⟨by decide, by decide,
   (claim_C3_decision_rule "ERROR: [X-1] failed\n| Site Type |".toList
     "report_utilization".toList).2 (by decide)⟩

/-- Claim C5: classifier behaviour on the three concrete inputs: an
anchored `ERROR: [XYZ-1] bad file` line is an actual failure, a
`| Timing ERROR | 0 |` report line alone is not, and `invalid command
name foo` as the very first line is an actual failure. -/
theorem claim_C5_classifier_concrete :
    (classify_output_errors "ERROR: [XYZ-1] bad file".toList "cmd".toList).is_actual_failure = true ∧
    (classify_output_errors "| Timing ERROR | 0 |".toList "cmd".toList).is_actual_failure = false ∧
    (classify_output_errors "invalid command name foo".toList "cmd".toList).is_actual_failure = true := by
  decide

/-- Claim C6: TCL (syntax-level) error detection is exactly a match of one
of the anchored patterns on one of the first five stripped lines, so it
only depends on the first five lines of (stripped) output: outputs that
agree there classify identically. -/
theorem claim_C6_tcl_detection_first_five (o1 o2 d1 d2 : List Char) :
    ((classify_output_errors o1 d1).is_tcl_error = true ↔
      ∃ l ∈ (splitOnNl (pyStrip o1)).take 5, tclLineMatches (pyStrip l) = true) ∧
    ((splitOnNl (pyStrip o1)).take 5 = (splitOnNl (pyStrip o2)).take 5 →
      (classify_output_errors o1 d1).is_tcl_error
        = (classify_output_errors o2 d2).is_tcl_error) := by
  constructor
  · simp [classify_output_errors, List.any_eq_true]
  · intro h
    simp [classify_output_errors, h]

theorem claim_C6_witness :
    tclLineMatches (pyStrip "invalid command name foo".toList) = true ∧
    (classify_output_errors "1\n2\n3\n4\n5\ninvalid command name foo".toList
      []).is_tcl_error = false := by
  refine ⟨by decide, ?_⟩
  have h := (claim_C6_tcl_detection_first_five
    "1\n2\n3\n4\n5\ninvalid command name foo".toList "1\n2\n3\n4\n5".toList [] []).2
    (by decide)
  rw [h]
  decide

/-- Claim C9: classifying the empty output reports non-failure on every
axis. -/
theorem claim_C9_empty_output_not_failure :
    (classify_output_errors [] "report_timing".toList).is_tcl_error = false ∧
    (classify_output_errors [] "report_timing".toList).is_vivado_error = false ∧
    (classify_output_errors [] "report_timing".toList).is_actual_failure = false := by
  decide

lemma rv_spec_start (s : VivadoSession) (e : StartEnv) :
    rv_spec (VivadoSession.start s e).2 := by
  obtain ⟨o, el, n⟩ := e
  cases hr : s.is_running with
  | true => simp [VivadoSession.start, hr, rv_spec]
  | false => cases o <;> simp [VivadoSession.start, hr, rv_spec]

set_option maxHeartbeats 2000000 in
lemma rv_spec_run (s : VivadoSession) (c : List Char) (e : RunEnv) :
    rv_spec (VivadoSession.run_tcl s c e).result := by
  obtain ⟨o, el, n⟩ := e
  cases hr : s.is_running with
  | false => simp [VivadoSession.run_tcl, hr, rv_spec]
  | true =>
    unfold VivadoSession.run_tcl
    rw [hr]
    cases o <;> rfl

lemma rv_spec_stop (s : VivadoSession) (now elapsed : Nat) :
    rv_spec (VivadoSession.stop s now elapsed).2 := by
  cases hr : s.is_running with
  | true => simp [VivadoSession.stop, hr, rv_spec]
  | false => simp [VivadoSession.stop, hr, rv_spec]

lemma rv_spec_ensure (s : VivadoSession) (e : EnsureEnv) :
    rv_spec (VivadoSession.ensure_healthy s e).2 := by
  unfold VivadoSession.ensure_healthy
  by_cases hh : VivadoSession.is_healthy s e.responsive = true
  · simp [hh, rv_spec]
  · simp only [hh, if_neg, Bool.not_eq_true]
    exact rv_spec_start _ _

/-- Claim C10 (implicit): every `CommandResult` any session operation
constructs satisfies the `return_value` convention: `"0"` exactly when
`success = true`, `"1"` otherwise. -/
theorem claim_C10_return_value_convention (s : VivadoSession) (se : StartEnv)
    (c : List Char) (re : RunEnv) (now elapsed : Nat) (ee : EnsureEnv) :
    rv_spec (VivadoSession.start s se).2 ∧
    rv_spec (VivadoSession.run_tcl s c re).result ∧
    rv_spec (VivadoSession.stop s now elapsed).2 ∧
    rv_spec (VivadoSession.ensure_healthy s ee).2 :=
  ⟨rv_spec_start s se, rv_spec_run s c re, rv_spec_stop s now elapsed,
   rv_spec_ensure s ee⟩

/-- Claim C1 is false of the code as written: the timeout handler of
`run_tcl` increments `errors` without incrementing `commands_run`, so a
fresh running session with a single timed-out command ends with
`errors = 1 > commands_run = 0`, violating `errors ≤ commands_run`. -/
theorem claim_C1_timeout_breaks_stats_invariant :
    sRunning.is_running = true ∧
    sRunning.stats.errors = 0 ∧
    sRunning.stats.commands_run = 0 ∧
    c1State.stats.errors = 1 ∧
    c1State.stats.commands_run = 0 ∧
    ¬(c1State.stats.errors ≤ c1State.stats.commands_run) := by
  decide

/-- Claim C2 as stated is false of the code: after a run and a stop, a
second successful spawning `start` leaves `commands_run = 1`,
`total_command_time_ms` and the history untouched — the statistics are
not reset. -/
theorem claim_C2_counterexample :
    c2Pre.is_running = false ∧
    (VivadoSession.start c2Pre c2Env).2.success = true ∧
    (VivadoSession.start c2Pre c2Env).1.is_running = true ∧
    ¬((VivadoSession.start c2Pre c2Env).1.stats.commands_run = 0 ∧
      (VivadoSession.start c2Pre c2Env).1.stats.total_command_time_ms = 0 ∧
      (VivadoSession.start c2Pre c2Env).1.stats.command_history = []) := by
  decide

/-- Claim C2 amended: a successful `start` from a non-running session
makes the state Running and stamps a fresh `session_start`, but leaves
`commands_run`, `total_command_time_ms`, `errors` and the command history
exactly as they were (they are only zeroed at construction). -/
theorem claim_C2_start_stamps_but_keeps_stats (s : VivadoSession) (e : StartEnv)
    (hr : s.is_running = false) (hok : e.outcome = SpawnOutcome.ok) :
    (VivadoSession.start s e).2.success = true ∧
    (VivadoSession.start s e).1.is_running = true ∧
    (VivadoSession.start s e).1.stats.session_start = some e.now ∧
    (VivadoSession.start s e).1.stats.commands_run = s.stats.commands_run ∧
    (VivadoSession.start s e).1.stats.total_command_time_ms
      = s.stats.total_command_time_ms ∧
    (VivadoSession.start s e).1.stats.errors = s.stats.errors ∧
    (VivadoSession.start s e).1.stats.command_history = s.stats.command_history := by
  obtain ⟨o, el, n⟩ := e
  cases hok
  simp [VivadoSession.start, hr]

theorem claim_C2_amended_witness :
    (VivadoSession.start (VivadoSession.init "vivado".toList 300)
      ⟨SpawnOutcome.ok, 5, 10⟩).2.success = true ∧
    (VivadoSession.start (VivadoSession.init "vivado".toList 300)
      ⟨SpawnOutcome.ok, 5, 10⟩).1.is_running = true ∧
    (VivadoSession.start (VivadoSession.init "vivado".toList 300)
      ⟨SpawnOutcome.ok, 5, 10⟩).1.stats.session_start
      = some (⟨SpawnOutcome.ok, 5, 10⟩ : StartEnv).now ∧
    (VivadoSession.start (VivadoSession.init "vivado".toList 300)
      ⟨SpawnOutcome.ok, 5, 10⟩).1.stats.commands_run
      = (VivadoSession.init "vivado".toList 300).stats.commands_run ∧
    (VivadoSession.start (VivadoSession.init "vivado".toList 300)
      ⟨SpawnOutcome.ok, 5, 10⟩).1.stats.total_command_time_ms
      = (VivadoSession.init "vivado".toList 300).stats.total_command_time_ms ∧
    (VivadoSession.start (VivadoSession.init "vivado".toList 300)
      ⟨SpawnOutcome.ok, 5, 10⟩).1.stats.errors
      = (VivadoSession.init "vivado".toList 300).stats.errors ∧
    (VivadoSession.start (VivadoSession.init "vivado".toList 300)
      ⟨SpawnOutcome.ok, 5, 10⟩).1.stats.command_history
      = (VivadoSession.init "vivado".toList 300).stats.command_history :=
  claim_C2_start_stamps_but_keeps_stats (VivadoSession.init "vivado".toList 300)
    ⟨SpawnOutcome.ok, 5, 10⟩ rfl rfl

lemma lastN_length_le {α : Type} (nn : Nat) (l : List α) :
    (lastN nn l).length ≤ nn := by
  simp only [lastN, List.length_drop]
  omega

lemma lastN_of_le {α : Type} (nn : Nat) (l : List α) (h : l.length ≤ nn) :
    lastN nn l = l := by
  unfold lastN
  rw [Nat.sub_eq_zero_of_le h, List.drop_zero]

lemma ringAppend_eq_lastN (h : List HistEntry) (x : HistEntry) :
    ringAppend h x = lastN 100 (h ++ [x]) := by
  unfold ringAppend
  by_cases hgt : (h ++ [x]).length > 100
  · rw [if_pos hgt]; rfl
  · rw [if_neg hgt]
    exact (lastN_of_le 100 _ (by omega)).symm

lemma ringAppend_length_le (h : List HistEntry) (x : HistEntry) :
    (ringAppend h x).length ≤ 100 := by
  rw [ringAppend_eq_lastN]
  exact lastN_length_le 100 _

lemma lastN_append_lastN {α : Type} (nn : Nat) (a b : List α) :
    lastN nn (lastN nn a ++ b) = lastN nn (a ++ b) := by
  by_cases h : a.length ≤ nn
  · rw [lastN_of_le nn a h]
  · push_neg at h
    unfold lastN
    have h1 : (a.drop (a.length - nn)).length = nn := by
      rw [List.length_drop]; omega
    rw [List.length_append, List.length_append, h1]
    have h2 : nn + b.length - nn = b.length := by omega
    have h3 : a.length + b.length - nn = (a.length - nn) + b.length := by omega
    rw [h2, h3, ← List.drop_drop, List.drop_append_of_le_length (Nat.sub_le a.length nn)]

lemma lastN_append_right {α : Type} (nn : Nat) (a b : List α) (h : nn ≤ b.length) :
    lastN nn (a ++ b) = lastN nn b := by
  unfold lastN
  rw [List.length_append]
  have h3 : a.length + b.length - nn = a.length + (b.length - nn) := by omega
  rw [h3, List.drop_append]

set_option maxHeartbeats 2000000 in
lemma run_tcl_completed_hist (s : VivadoSession) (c raw : List Char) (el n : Nat)
    (hr : s.is_running = true) :
    (VivadoSession.run_tcl s c ⟨RunOutcome.completed raw, el, n⟩).state.stats.command_history
      = ringAppend s.stats.command_history
          (mkHistEntry c ⟨RunOutcome.completed raw, el, n⟩ raw) := by
  unfold VivadoSession.run_tcl mkHistEntry
  rw [hr]
  rfl

lemma run_tcl_timedOut_hist (s : VivadoSession) (c : List Char) (el n : Nat)
    (hr : s.is_running = true) :
    (VivadoSession.run_tcl s c ⟨RunOutcome.timedOut, el, n⟩).state.stats.command_history
      = s.stats.command_history := by
  unfold VivadoSession.run_tcl
  rw [hr]
  rfl

lemma run_tcl_exn_hist (s : VivadoSession) (c msg : List Char) (el n : Nat)
    (hr : s.is_running = true) :
    (VivadoSession.run_tcl s c ⟨RunOutcome.exn msg, el, n⟩).state.stats.command_history
      = s.stats.command_history := by
  unfold VivadoSession.run_tcl
  rw [hr]
  rfl

lemma runSeq_hist (seq : List (List Char × RunEnv)) (s : VivadoSession)
    (hr : s.is_running = true) (hl : s.stats.command_history.length ≤ 100) :
    (runSeq s seq).stats.command_history
      = lastN 100 (s.stats.command_history ++ seqEntries seq) := by
  induction seq generalizing s with
  | nil =>
    show s.stats.command_history = lastN 100 (s.stats.command_history ++ [])
    rw [List.append_nil]
    exact (lastN_of_le 100 _ hl).symm
  | cons p rest ih =>
    obtain ⟨c, e⟩ := p
    obtain ⟨o, el, n⟩ := e
    have hr2 := run_tcl_state_is_running s c ⟨o, el, n⟩
    rw [hr] at hr2
    cases o with
    | completed raw =>
      show (runSeq (VivadoSession.run_tcl s c
        ⟨RunOutcome.completed raw, el, n⟩).state rest).stats.command_history = _
      rw [ih _ hr2 (by
        rw [run_tcl_completed_hist s c raw el n hr]
        exact ringAppend_length_le _ _)]
      rw [run_tcl_completed_hist s c raw el n hr, ringAppend_eq_lastN,
        lastN_append_lastN]
      show _ = lastN 100 (s.stats.command_history
        ++ (mkHistEntry c ⟨RunOutcome.completed raw, el, n⟩ raw :: seqEntries rest))
      rw [List.append_assoc]
      rfl
    | timedOut =>
      show (runSeq (VivadoSession.run_tcl s c
        ⟨RunOutcome.timedOut, el, n⟩).state rest).stats.command_history = _
      rw [ih _ hr2 (by rw [run_tcl_timedOut_hist s c el n hr]; exact hl)]
      rw [run_tcl_timedOut_hist s c el n hr]
      rfl
    | exn msg =>
      show (runSeq (VivadoSession.run_tcl s c
        ⟨RunOutcome.exn msg, el, n⟩).state rest).stats.command_history = _
      rw [ih _ hr2 (by rw [run_tcl_exn_hist s c msg el n hr]; exact hl)]
      rw [run_tcl_exn_hist s c msg el n hr]
      rfl

/-- Claim C8: the command history is a bounded ring.  From any running
session whose history respects the bound, after any sequence of `run_tcl`
calls the retained history is exactly the last 100 of the old history
followed by the entries of the sequence's completed commands (in
execution order, oldest evicted first); its length never exceeds 100, and
once more than 100 commands have completed the length is exactly 100 and
the history is precisely the most recent 100 entries in order. -/
theorem claim_C8_history_bounded_ring (s : VivadoSession)
    (seq : List (List Char × RunEnv)) (hr : s.is_running = true)
    (hl : s.stats.command_history.length ≤ 100) :
    (runSeq s seq).stats.command_history
      = lastN 100 (s.stats.command_history ++ seqEntries seq) ∧
    (runSeq s seq).stats.command_history.length ≤ 100 ∧
    (100 < (seqEntries seq).length →
      (runSeq s seq).stats.command_history.length = 100 ∧
      (runSeq s seq).stats.command_history = lastN 100 (seqEntries seq)) := by
  have hmain := runSeq_hist seq s hr hl
  refine ⟨hmain, ?_, ?_⟩
  · rw [hmain]
    exact lastN_length_le 100 _
  · intro hgt
    have heq : (runSeq s seq).stats.command_history = lastN 100 (seqEntries seq) := by
      rw [hmain, lastN_append_right 100 _ _ (by omega)]
    refine ⟨?_, heq⟩
    rw [heq]
    unfold lastN
    rw [List.length_drop]
    omega

theorem claim_C8_witness :
    100 < (seqEntries c8Seq).length ∧
    (runSeq sRunning c8Seq).stats.command_history.length = 100 :=
  ⟨by decide,
   ((claim_C8_history_bounded_ring sRunning c8Seq (by decide) (by decide)).2.2
     (by decide)).1⟩
